import Mathlib

/-!
# Verification of the OAuth2 auth controller and session lifecycle of `app.py`

Shallow embedding of the authentication-relevant parts of `src/app.py`
(a Streamlit dashboard with a Google OAuth2 authorization-code flow).

Modelling conventions:
* JSON objects returned by the provider endpoints are modelled as
  association lists of string keys to string values (`JsonObj`); the code
  only ever reads string-valued fields (`access_token`, `email`, `picture`).
* the Streamlit session state is modelled by `Session`, holding the three fields the
  auth code touches: `oauth_token`, `user`, `oauth_state` (lines 72-77).
* the query parameters are modelled by `QueryParams`, an association list whose
  values are either a string or a list of strings (`QVal`), matching the
  defensive `isinstance(qp["code"], list)` check at line 85.
* Network I/O (`requests.post` / `requests.get`) is modelled by oracle
  functions, passed as parameters, from the request URL and its
  data/headers to a `FetchResult`: either a response with a status code and
  a JSON body, or a transport-level error (which `requests` raises as an
  exception). `resp.raise_for_status()` raises for statuses in [400, 600).
* The `try/except` of the callback block (lines 86-97) is modelled by the
  `Outcome` of `handle_callback`: `.exchangeError` stands for the caught
  exception branch (`st.error(f"Error exchanging code for token: ...")`,
  the `AuthExchangeError` of the spec), `.missingToken` for the
  `st.error("No access token received from Google.")` branch (the `MissingTokenError` of the spec).
* Streamlit reruns the whole script per interaction; each operation below
  embeds one of the blocks of the script as a function on the session.
-/

/-- A JSON object, restricted to the string-valued fields the code reads. -/
abbrev JsonObj : Type := List (String × String)

/-- Models the Python `dict.get(k)` method: the value at the first matching key, else `None`. -/
def jget (j : JsonObj) (k : String) : Option String :=
  (List.find? (fun p => p.1 == k) j).map Prod.snd

/-- Python truthiness of an optional string: `None` and `""` are falsy.
Used for `if access_token:` (line 89) and `if user.get("picture"):`
(line 131). -/
def truthyVal (o : Option String) : Option String :=
  o.bind (fun s => if s = "" then none else some s)

/-- A query-parameter value: a plain string or a list of strings
(the code defends against both at line 85). -/
inductive QVal : Type where
  | str (s : String)
  | list (l : List String)
deriving DecidableEq, Repr

/-- The query parameters of the request (`st.query_params`). -/
abbrev QueryParams : Type := List (String × QVal)

/-- Dictionary lookup in the query parameters. -/
def qlookup (qp : QueryParams) (k : String) : Option QVal :=
  (List.find? (fun p => p.1 == k) qp).map Prod.snd

/-- Line 85: `code = qp["code"][0] if isinstance(qp["code"], list) else qp["code"]`.
`none` models the uncaught `IndexError` when the value is an empty list
(line 85 sits outside the `try` block). -/
def extract_code : QVal → Option String
  | .str s => some s
  | .list l => l.head?

/-- The three `st.session_state` fields the auth code uses (lines 72-77). -/
structure Session where
  oauth_token : Option JsonObj
  user : Option JsonObj
  oauth_state : Option String
deriving DecidableEq, Repr

/-- Session-state defaults: all three keys start as `None` (lines 72-77). -/
def init_session : Session := ⟨none, none, none⟩

/-- Configuration read from `st.secrets` (lines 23-27). -/
structure Config where
  client_id : String
  client_secret : String
  local_url : String
deriving DecidableEq, Repr

/-- Line 27: `REDIRECT_URI = LOCAL_URL`. -/
def Config.redirect_uri (cfg : Config) : String := cfg.local_url

def AUTH_URL : String := "https://accounts.google.com/o/oauth2/v2/auth"
def TOKEN_URL : String := "https://oauth2.googleapis.com/token"
def USERINFO_URL : String := "https://openidconnect.googleapis.com/v1/userinfo"
def SCOPE : String := "openid email profile"

/-- An HTTP response: status code and parsed JSON body. -/
structure HttpResponse where
  status : Nat
  body : JsonObj
deriving DecidableEq, Repr

/-- Result of a `requests` call: a response, or a transport-level
exception (connection error, timeout). -/
inductive FetchResult : Type where
  | resp (r : HttpResponse)
  | transportError (msg : String)
deriving DecidableEq, Repr

/-- An exception raised by the `requests` layer: `raise_for_status()` on a
4xx/5xx status, or a transport error. -/
inductive PyError : Type where
  | httpError (status : Nat) (body : JsonObj)
  | transportError (msg : String)
deriving DecidableEq, Repr

/-- Models `resp.raise_for_status()` followed by `resp.json()`: raises
`PyError.httpError` for statuses in [400, 600), propagates transport
errors, otherwise yields the JSON body (lines 60-61, 66-67). -/
def request_json (fr : FetchResult) : Except PyError JsonObj :=
  match fr with
  | .transportError m => .error (.transportError m)
  | .resp r =>
      if 400 ≤ r.status ∧ r.status < 600 then .error (.httpError r.status r.body)
      else .ok r.body

/-- The network: an oracle from URL and form data / headers to a result.
`post url data` models `requests.post(url, data=data, timeout=15)`;
`get url headers` models `requests.get(url, headers=headers, timeout=15)`. -/
def Net : Type := String → List (String × String) → FetchResult

/-- Form body POSTed to the token endpoint (lines 52-58). -/
def token_request_data (cfg : Config) (code : String) : List (String × String) :=
  [("code", code),
   ("client_id", cfg.client_id),
   ("client_secret", cfg.client_secret),
   ("redirect_uri", cfg.redirect_uri),
   ("grant_type", "authorization_code")]

/-- Function `exchange_code_for_token` (lines 51-61): POST to the token endpoint,
`raise_for_status()`, return the JSON body. -/
def exchange_code_for_token (post : Net) (cfg : Config) (code : String) :
    Except PyError JsonObj :=
  request_json (post TOKEN_URL (token_request_data cfg code))

/-- Function `fetch_userinfo` (lines 63-67): GET the identity endpoint with an
`Authorization: Bearer <token>` header, `raise_for_status()`, return the
JSON body. -/
def fetch_userinfo (get : Net) (access_token : String) :
    Except PyError JsonObj :=
  request_json (get USERINFO_URL [("Authorization", "Bearer " ++ access_token)])

/-- Observable outcome of the callback block (lines 82-99). -/
inductive Outcome : Type where
  /-- Token and identity both stored. -/
  | success
  /-- Models `st.error("No access token received from Google.")` at
  line 95 — the `MissingTokenError` of the spec. -/
  | missingToken
  /-- Models `st.error(f"Error exchanging code for token: ...")` at
  lines 96-97, the caught exception from either endpoint — the
  `AuthExchangeError` of the spec. -/
  | exchangeError (e : PyError)
  /-- Means the guard at line 83 failed; the block did not run. -/
  | skipped
  /-- Uncaught `IndexError` at line 85: `qp["code"]` was an empty list. -/
  | indexError
deriving DecidableEq, Repr

/-- Result of running the callback block once: the new session, the
outcome, the number of network calls performed, and whether line 99
(clearing `st.query_params`) was reached. -/
structure CoreResult where
  session : Session
  outcome : Outcome
  network_calls : Nat
  cleared : Bool
deriving DecidableEq, Repr

/-- Body of the callback block as a function of the looked-up `"code"`
query-parameter value (lines 83-99). Session writes happen exactly
where the source performs them: the token is stored (line 90) *before*
`fetch_userinfo` is called (line 92). -/
def callback_core (post get : Net) (cfg : Config)
    (codeVal : Option QVal) (s : Session) : CoreResult :=
  match codeVal with
  | none => ⟨s, .skipped, 0, false⟩
  | some v =>
      match s.oauth_token with
      | some _ => ⟨s, .skipped, 0, false⟩
      | none =>
          match extract_code v with
          | none => ⟨s, .indexError, 0, false⟩
          | some code =>
              match exchange_code_for_token post cfg code with
              | .error e => ⟨s, .exchangeError e, 1, true⟩
              | .ok token_json =>
                  match truthyVal (jget token_json "access_token") with
                  | none => ⟨s, .missingToken, 1, true⟩
                  | some access_token =>
                      let s₁ : Session := { s with oauth_token := some token_json }
                      match fetch_userinfo get access_token with
                      | .error e => ⟨s₁, .exchangeError e, 2, true⟩
                      | .ok user => ⟨{ s₁ with user := some user }, .success, 2, true⟩

/-- Result of `handle_callback`: `CoreResult` plus the resulting query
parameters. -/
structure CallbackResult where
  session : Session
  qp : QueryParams
  outcome : Outcome
  network_calls : Nat
deriving DecidableEq, Repr

/-- The OAuth callback handling block (lines 82-99): runs only when a
`"code"` query parameter is present and no token is held; clears the
query parameters (line 99) whenever the `try` statement of the block
ran. -/
def handle_callback (post get : Net) (cfg : Config)
    (qp : QueryParams) (s : Session) : CallbackResult :=
  let r := callback_core post get cfg (qlookup qp "code") s
  ⟨r.session, if r.cleared then [] else qp, r.outcome, r.network_calls⟩

/-- Upper-case hexadecimal digit for `n < 16`, as used by percent-encoding. -/
def hexUpper (n : Nat) : Char :=
  if n < 10 then Char.ofNat (48 + n) else Char.ofNat (55 + n)

/-- Percent-encodes one byte as `%XY` with upper-case hex digits. -/
def percentByte (b : UInt8) : String :=
  String.mk ['%', hexUpper (b.toNat / 16), hexUpper (b.toNat % 16)]

/-- Models `urllib.parse.quote_plus` as applied by `urlencode` to each key
and value: alphanumerics and `-`, `_`, `.`, `~` are kept, a space becomes
`+`, every other character is percent-encoded byte by byte (UTF-8). -/
def quote_plus (s : String) : String :=
  String.join (s.data.map (fun c =>
    if c.isAlphanum ∨ c = '-' ∨ c = '_' ∨ c = '.' ∨ c = '~' then String.mk [c]
    else if c = ' ' then "+"
    else String.join (((String.mk [c]).toUTF8.toList).map percentByte)))

/-- Models `urllib.parse.urlencode` (line 48-49): `k=v` pairs joined
with `&`, each key and value quoted. -/
def urlencode (params : List (String × String)) : String :=
  String.intercalate "&"
    (params.map (fun p => quote_plus p.1 ++ "=" ++ quote_plus p.2))

/-- Function `build_login_link` (lines 37-49): the authorization-endpoint
URL with the seven query parameters of the code. -/
def build_login_link (cfg : Config) (state : String) : String :=
  AUTH_URL ++ "?" ++ urlencode
    [("client_id", cfg.client_id),
     ("redirect_uri", cfg.redirect_uri),
     ("response_type", "code"),
     ("scope", SCOPE),
     ("state", state),
     ("access_type", "offline"),
     ("prompt", "consent")]

/-- The not-logged-in block (lines 104-112), the `build_authorization_link`
operation of the spec: draws a fresh value from the uuid source (modelled
as the argument `uuid`, the value `str(uuid.uuid4())` returns), stores it
as `oauth_state`, and renders the login link. Returns the new session and
the rendered link. -/
def login_block (cfg : Config) (uuid : String) (s : Session) :
    Session × String :=
  ({ s with oauth_state := some uuid }, build_login_link cfg uuid)

/-- The script after the callback block (lines 104-112): when no token is
held, the login block runs (storing a fresh `state` and rendering the
sign-in link) and the script stops. Returns the session and the rendered
sign-in link, if any. -/
def post_callback_render (cfg : Config) (uuid : String) (s : Session) :
    Session × Option String :=
  match s.oauth_token with
  | none => let r := login_block cfg uuid s; (r.1, some r.2)
  | some _ => (s, none)

/-- The Log out button handler (lines 135-139): sets `oauth_token` and
`user` to `None`. It does not touch `oauth_state`. -/
def logout (s : Session) : Session :=
  { s with oauth_token := none, user := none }

/-- The `current_identity` operation of the spec, as realised by the
script: the logged-in section (line 117 onwards) is reached only when a
token is held (otherwise line 112 stops the script), and there reads
`st.session_state.get("user")`. -/
def current_identity (s : Session) : Option JsonObj :=
  match s.oauth_token with
  | none => none
  | some _ => s.user

/-- What the sidebar renders for the identity (lines 130-133). -/
structure SidebarDisplay where
  /-- Lines 131-132: `st.image(user.get("picture"), width=80)`, shown only
  when `user.get("picture")` is truthy; `none` means no avatar is shown. -/
  avatar : Option String
  /-- Line 133: `st.write(f"**{user.get('email', 'Unknown')}**")`. -/
  email_line : String
deriving DecidableEq, Repr

/-- The sidebar identity display (lines 130-133). -/
def sidebar_identity (user : JsonObj) : SidebarDisplay :=
  { avatar := truthyVal (jget user "picture"),
    email_line := "**" ++ (jget user "email").getD "Unknown" ++ "**" }

/-- The local part of an email address: the substring preceding the first
`@` (the whole string when no `@` occurs). -/
def localPart (email : String) : String :=
  String.mk (email.data.takeWhile (fun c => c ≠ '@'))

/-- Upper-cases the first character of a string. -/
def upperFirst (s : String) : String :=
  match s.data with
  | [] => ""
  | c :: _ => String.mk [c.toUpper]

/-- Modelled from the spec: the `resolve_display_identity` contract of
section 4.1, which no code under `src/` implements. `name` is
`record.name` if present else the local part of `email`; `avatar` is
`record.picture` if present else a placeholder keyed on the upper-cased
first character of `name`; `none` stands for `IdentityIncompleteError`
when `email` is absent. The placeholder is represented by its key. -/
inductive AvatarSpec : Type where
  | url (u : String)
  | placeholder (key : String)
deriving DecidableEq, Repr

/-- Modelled from the spec: `resolve_display_identity` (section 4.1). -/
def resolve_display_identity_spec (record : JsonObj) :
    Option (String × AvatarSpec) :=
  match jget record "email" with
  | none => none
  | some email =>
      let name := (jget record "name").getD (localPart email)
      let avatar :=
        match jget record "picture" with
        | some p => AvatarSpec.url p
        | none => AvatarSpec.placeholder (upperFirst name)
      some (name, avatar)

/-- One interaction step on a session: a Streamlit rerun executing the
callback block (with an arbitrary network and arbitrary query
parameters), the login block (with an arbitrary fresh uuid), or the Log
out button handler. -/
inductive SessionStep : Session → Session → Prop where
  | callback (post get : Net) (cfg : Config) (qp : QueryParams) (s : Session) :
      SessionStep s (handle_callback post get cfg qp s).session
  | login (cfg : Config) (uuid : String) (s : Session) :
      SessionStep s (login_block cfg uuid s).1
  | logoutStep (s : Session) :
      SessionStep s (logout s)

/-- A session state reachable from the defaults of lines 72-77 by
interaction steps. -/
inductive Reachable : Session → Prop where
  | init : Reachable init_session
  | step {s t : Session} : Reachable s → SessionStep s t → Reachable t

/-! ## Concrete instances used by witnesses and counterexamples -/

/-- A concrete configuration. -/
def cfg0 : Config := ⟨"cid", "csecret", "http://localhost:8501"⟩

/-- Concrete callback query parameters carrying a `code` and a `state`. -/
def qp0 : QueryParams := [("code", QVal.str "abc123"), ("state", QVal.str "st-1")]

/-- A network whose token endpoint answers 200 with an access token. -/
def net_token_ok : Net := fun _ _ => .resp ⟨200, [("access_token", "t1")]⟩

/-- A network whose identity endpoint answers 200 with an email claim. -/
def net_userinfo_ok : Net := fun _ _ => .resp ⟨200, [("email", "u@x.com")]⟩

/-- A network answering HTTP 400 with an OAuth error body. -/
def net_http400 : Net := fun _ _ => .resp ⟨400, [("error", "invalid_grant")]⟩

/-- A network answering HTTP 500. -/
def net_http500 : Net := fun _ _ => .resp ⟨500, []⟩

/-- A network whose token endpoint answers 200 but without an
`access_token` field. -/
def net_token_no_access : Net := fun _ _ => .resp ⟨200, [("token_type", "Bearer")]⟩

/-- A network whose identity endpoint answers only when addressed at
`USERINFO_URL` with the bearer header for token `t1`. -/
def net_userinfo_strict : Net := fun url headers =>
  if url = USERINFO_URL ∧ headers = [("Authorization", "Bearer t1")] then
    .resp ⟨200, [("email", "u@x.com")]⟩
  else .transportError "unexpected request"

/-! ## Claims -/

/-- C2, counterexample: the claim says `logout()` clears all three session
fields, leaving them all null. On a session holding a pending CSRF
`state`, the Log out handler (lines 135-139) leaves `oauth_state` set:
the result is not the all-null session. -/
theorem C2_counterexample :
    logout ⟨some [("access_token", "t1")], some [("email", "u@x.com")], some "st-1"⟩
      ≠ init_session ∧
    (logout ⟨some [("access_token", "t1")], some [("email", "u@x.com")], some "st-1"⟩).oauth_state
      = some "st-1" := by
  constructor
  · intro h
    simpa [logout, init_session] using congrArg Session.oauth_state h
  · rfl

/-- C2, amended: `logout()` clears the Token Record and the Identity
Record but leaves the pending CSRF `state` untouched; it is idempotent,
and on a session whose token and identity are already empty it leaves the
session unchanged. -/
theorem C2_amended (s : Session) :
    logout s = ⟨none, none, s.oauth_state⟩ ∧
    logout (logout s) = logout s ∧
    (s.oauth_token = none → s.user = none → logout s = s) := by
  refine ⟨rfl, rfl, fun h₁ h₂ => ?_⟩
  cases s
  simp_all [logout]

/-- C2, witness: on an already-logged-out session the Log out handler is a
no-op. -/
theorem C2_amended_witness :
    logout ⟨none, none, some "st-1"⟩ = ⟨none, none, some "st-1"⟩ :=
  (C2_amended ⟨none, none, some "st-1"⟩).2.2 rfl rfl

/-- C3: when the session already holds a Token Record, running the
callback block again with the same query parameters (still carrying a
`code`) performs zero network calls and leaves the session — and even the
query parameters — unchanged: the guard at line 83 skips the whole
block. -/
theorem C3_idempotent_callback (post get : Net) (cfg : Config)
    (qp : QueryParams) (s : Session) (v : QVal) (tk : JsonObj)
    (hv : qlookup qp "code" = some v) (htok : s.oauth_token = some tk) :
    handle_callback post get cfg qp s = ⟨s, qp, .skipped, 0⟩ := by
  simp [handle_callback, callback_core, hv, htok]

/-- C3, witness: a session holding a token skips the callback block on the
concrete query parameters `qp0`. -/
theorem C3_idempotent_callback_witness :
    handle_callback net_token_ok net_userinfo_ok cfg0 qp0
        ⟨some [("access_token", "t1")], some [("email", "u@x.com")], none⟩ =
      ⟨⟨some [("access_token", "t1")], some [("email", "u@x.com")], none⟩,
        qp0, .skipped, 0⟩ :=
  C3_idempotent_callback net_token_ok net_userinfo_ok cfg0 qp0
    ⟨some [("access_token", "t1")], some [("email", "u@x.com")], none⟩
    (QVal.str "abc123") [("access_token", "t1")] rfl rfl

/-- C7: two sequential runs of the not-logged-in block draw two values
from the uuid source; provided the two draws differ (the defining
property of `uuid.uuid4()` freshness), the two stored `state` values
differ, only the most recent one is kept in the session, and the block
changes nothing in the session beyond `oauth_state`. -/
theorem C7_state_uniqueness (cfg : Config) (g : Nat → String) (n : Nat)
    (s : Session) (hg : g n ≠ g (n + 1)) :
    (login_block cfg (g n) s).1.oauth_state = some (g n) ∧
    (login_block cfg (g (n + 1)) (login_block cfg (g n) s).1).1.oauth_state
      = some (g (n + 1)) ∧
    (login_block cfg (g n) s).1.oauth_state ≠
      (login_block cfg (g (n + 1)) (login_block cfg (g n) s).1).1.oauth_state ∧
    (login_block cfg (g (n + 1)) (login_block cfg (g n) s).1).1.oauth_token
      = s.oauth_token ∧
    (login_block cfg (g (n + 1)) (login_block cfg (g n) s).1).1.user = s.user := by
  refine ⟨rfl, rfl, ?_, rfl, rfl⟩
  simpa [login_block] using hg

/-- C7, witness: with a uuid source whose first two draws are `"u0"` and
`"u1"`, the two stored states differ and the token and identity fields
are untouched. -/
theorem C7_state_uniqueness_witness :
    (login_block cfg0 ((fun k => if k = 0 then "u0" else "u1") 0) init_session).1.oauth_state
      = some ((fun k => if k = 0 then "u0" else "u1") 0) ∧
    (login_block cfg0 ((fun k => if k = 0 then "u0" else "u1") 1)
        (login_block cfg0 ((fun k => if k = 0 then "u0" else "u1") 0) init_session).1).1.oauth_state
      = some ((fun k => if k = 0 then "u0" else "u1") 1) ∧
    (login_block cfg0 ((fun k => if k = 0 then "u0" else "u1") 0) init_session).1.oauth_state ≠
      (login_block cfg0 ((fun k => if k = 0 then "u0" else "u1") 1)
        (login_block cfg0 ((fun k => if k = 0 then "u0" else "u1") 0) init_session).1).1.oauth_state ∧
    (login_block cfg0 ((fun k => if k = 0 then "u0" else "u1") 1)
        (login_block cfg0 ((fun k => if k = 0 then "u0" else "u1") 0) init_session).1).1.oauth_token
      = init_session.oauth_token ∧
    (login_block cfg0 ((fun k => if k = 0 then "u0" else "u1") 1)
        (login_block cfg0 ((fun k => if k = 0 then "u0" else "u1") 0) init_session).1).1.user
      = init_session.user :=
  C7_state_uniqueness cfg0 (fun k => if k = 0 then "u0" else "u1") 0 init_session
    (by decide)

/-- C10: whenever the callback block actually runs — a `code` parameter is
present, no Token Record is held, and the code value extraction at line 85
succeeds — the query parameters are cleared afterwards in every branch:
success, missing `access_token`, and a raised exchange or identity-fetch
exception alike (line 99 sits after the `try/except`). -/
theorem C10_params_cleared (post get : Net) (cfg : Config)
    (qp : QueryParams) (s : Session) (v : QVal) (code : String)
    (hv : qlookup qp "code" = some v) (htok : s.oauth_token = none)
    (hc : extract_code v = some code) :
    (handle_callback post get cfg qp s).qp = [] := by
  simp only [handle_callback, callback_core, hv, htok, hc]
  cases hx : exchange_code_for_token post cfg code with
  | error e => simp [hx]
  | ok tj =>
    cases hy : truthyVal (jget tj "access_token") with
    | none => simp [hx, hy]
    | some a =>
      cases hz : fetch_userinfo get a with
      | error e => simp [hx, hy, hz]
      | ok u => simp [hx, hy, hz]

/-- C10, witness: the query parameters are cleared on a failing exchange
(HTTP 400 from the token endpoint). -/
theorem C10_params_cleared_witness :
    (handle_callback net_http400 net_userinfo_ok cfg0 qp0 init_session).qp = [] :=
  C10_params_cleared net_http400 net_userinfo_ok cfg0 qp0 init_session
    (QVal.str "abc123") "abc123" rfl rfl rfl

/-- C1, counterexample: the claim says any identity-endpoint failure
leaves the session with no Token Record. But the code stores the token at
line 90 *before* calling `fetch_userinfo` at line 92: with a token
endpoint answering 200 with `access_token` `t1` and an identity endpoint
answering HTTP 500, the outcome is the exchange error, yet a Token Record
is stored (and no Identity Record). -/
theorem C1_counterexample :
    (handle_callback net_token_ok net_http500 cfg0 qp0 init_session).outcome
      = .exchangeError (.httpError 500 []) ∧
    (handle_callback net_token_ok net_http500 cfg0 qp0 init_session).session.oauth_token
      = some [("access_token", "t1")] ∧
    (handle_callback net_token_ok net_http500 cfg0 qp0 init_session).session.user
      = none := by
  refine ⟨rfl, rfl, rfl⟩

/-- C1, amended: when the token-endpoint exchange itself fails (transport
error or non-2xx status), the callback fails with the exchange error and
the session keeps no Token Record and no Identity Record; but when the
identity-endpoint fetch fails after a successful exchange, the callback
fails with the exchange error with the Token Record already stored —
only the Identity Record is absent. In both branches the query
parameters are cleared. -/
theorem C1_amended (post get : Net) (cfg : Config) (qp : QueryParams)
    (s : Session) (v : QVal) (code : String)
    (hv : qlookup qp "code" = some v) (htok : s.oauth_token = none)
    (husr : s.user = none) (hc : extract_code v = some code) :
    (∀ e, exchange_code_for_token post cfg code = .error e →
      handle_callback post get cfg qp s = ⟨s, [], .exchangeError e, 1⟩ ∧
      (handle_callback post get cfg qp s).session.oauth_token = none ∧
      (handle_callback post get cfg qp s).session.user = none) ∧
    (∀ tj a e, exchange_code_for_token post cfg code = .ok tj →
      truthyVal (jget tj "access_token") = some a →
      fetch_userinfo get a = .error e →
      handle_callback post get cfg qp s =
        ⟨{ s with oauth_token := some tj }, [], .exchangeError e, 2⟩ ∧
      (handle_callback post get cfg qp s).session.user = none) := by
  constructor
  · intro e hx
    have hmain : handle_callback post get cfg qp s = ⟨s, [], .exchangeError e, 1⟩ := by
      simp [handle_callback, callback_core, hv, htok, hc, hx]
    exact ⟨hmain, by rw [hmain]; exact htok, by rw [hmain]; exact husr⟩
  · intro tj a e hx hy hz
    have hmain : handle_callback post get cfg qp s =
        ⟨{ s with oauth_token := some tj }, [], .exchangeError e, 2⟩ := by
      simp [handle_callback, callback_core, hv, htok, hc, hx, hy, hz]
    exact ⟨hmain, by rw [hmain]; exact husr⟩

/-- C1, witness: a token endpoint answering HTTP 400 makes the callback
fail with the exchange error and leaves the initial session unchanged
(no Token Record, no Identity Record). -/
theorem C1_amended_witness :
    handle_callback net_http400 net_userinfo_ok cfg0 qp0 init_session =
      ⟨init_session, [],
        .exchangeError (.httpError 400 [("error", "invalid_grant")]), 1⟩ ∧
    (handle_callback net_http400 net_userinfo_ok cfg0 qp0 init_session).session.oauth_token
      = none ∧
    (handle_callback net_http400 net_userinfo_ok cfg0 qp0 init_session).session.user
      = none :=
  (C1_amended net_http400 net_userinfo_ok cfg0 qp0 init_session
      (QVal.str "abc123") "abc123" rfl rfl rfl rfl).1
    (.httpError 400 [("error", "invalid_grant")]) rfl

/-- C5: when the token endpoint answers with HTTP success but the body
holds no (truthy) `access_token`, the callback reports the missing token
(line 95, the `MissingTokenError` of the spec), stores nothing in the
session, clears the query parameters, and — the session being still
unauthenticated — the following not-logged-in block renders the sign-in
link again. -/
theorem C5_missing_token (post get : Net) (cfg : Config) (qp : QueryParams)
    (s : Session) (v : QVal) (code : String) (tj : JsonObj) (uuid : String)
    (hv : qlookup qp "code" = some v) (htok : s.oauth_token = none)
    (husr : s.user = none) (hc : extract_code v = some code)
    (hx : exchange_code_for_token post cfg code = .ok tj)
    (hmiss : truthyVal (jget tj "access_token") = none) :
    handle_callback post get cfg qp s = ⟨s, [], .missingToken, 1⟩ ∧
    (handle_callback post get cfg qp s).session.oauth_token = none ∧
    (handle_callback post get cfg qp s).session.user = none ∧
    (post_callback_render cfg uuid (handle_callback post get cfg qp s).session).2
      = some (build_login_link cfg uuid) := by
  have hmain : handle_callback post get cfg qp s = ⟨s, [], .missingToken, 1⟩ := by
    simp [handle_callback, callback_core, hv, htok, hc, hx, hmiss]
  refine ⟨hmain, by rw [hmain]; exact htok, by rw [hmain]; exact husr, ?_⟩
  rw [hmain]
  simp [post_callback_render, login_block, htok]

/-- C5, witness: a 200 response without `access_token` yields the
missing-token outcome on the concrete inputs, and the sign-in link is
rendered again. -/
theorem C5_missing_token_witness :
    handle_callback net_token_no_access net_userinfo_ok cfg0 qp0 init_session
      = ⟨init_session, [], .missingToken, 1⟩ ∧
    (handle_callback net_token_no_access net_userinfo_ok cfg0 qp0 init_session).session.oauth_token
      = none ∧
    (handle_callback net_token_no_access net_userinfo_ok cfg0 qp0 init_session).session.user
      = none ∧
    (post_callback_render cfg0 "u0"
        (handle_callback net_token_no_access net_userinfo_ok cfg0 qp0 init_session).session).2
      = some (build_login_link cfg0 "u0") :=
  C5_missing_token net_token_no_access net_userinfo_ok cfg0 qp0 init_session
    (QVal.str "abc123") "abc123" [("token_type", "Bearer")] "u0"
    rfl rfl rfl rfl rfl rfl

/-- C6: the happy path. Starting from the empty session, the login block
stores a fresh `state`; on the provider redirect carrying a `code`, if
the token endpoint answers 200 with `access_token` `t1` and the identity
endpoint, called with header `Authorization: Bearer t1`, answers 200 with
email `u@x.com`, then the Token Record and the Identity Record are both
stored, the query parameters are cleared, and the current identity has
email `u@x.com`. -/
theorem C6_happy_path (post get : Net) (cfg : Config) (qp : QueryParams)
    (uuid : String) (v : QVal) (code : String)
    (hv : qlookup qp "code" = some v) (hc : extract_code v = some code)
    (hpost : post TOKEN_URL (token_request_data cfg code)
      = .resp ⟨200, [("access_token", "t1")]⟩)
    (hget : get USERINFO_URL [("Authorization", "Bearer t1")]
      = .resp ⟨200, [("email", "u@x.com")]⟩) :
    (handle_callback post get cfg qp (login_block cfg uuid init_session).1).session.oauth_token
      = some [("access_token", "t1")] ∧
    (handle_callback post get cfg qp (login_block cfg uuid init_session).1).session.user
      = some [("email", "u@x.com")] ∧
    (handle_callback post get cfg qp (login_block cfg uuid init_session).1).qp = [] ∧
    (handle_callback post get cfg qp (login_block cfg uuid init_session).1).outcome
      = .success ∧
    ((current_identity
        (handle_callback post get cfg qp (login_block cfg uuid init_session).1).session).bind
      (fun u => jget u "email")) = some "u@x.com" := by
  have hx : exchange_code_for_token post cfg code = .ok [("access_token", "t1")] := by
    simp [exchange_code_for_token, hpost, request_json]
  have hz : fetch_userinfo get "t1" = .ok [("email", "u@x.com")] := by
    simp [fetch_userinfo, hget, request_json]
  simp [handle_callback, callback_core, login_block, init_session, hv, hc, hx, hz,
    truthyVal, current_identity, jget]

/-- C6, witness: the happy path on concrete inputs, with an identity
endpoint that only answers the exact request `GET USERINFO_URL` with
header `Authorization: Bearer t1`. -/
theorem C6_happy_path_witness :
    (handle_callback net_token_ok net_userinfo_strict cfg0 qp0
        (login_block cfg0 "u0" init_session).1).session.oauth_token
      = some [("access_token", "t1")] ∧
    (handle_callback net_token_ok net_userinfo_strict cfg0 qp0
        (login_block cfg0 "u0" init_session).1).session.user
      = some [("email", "u@x.com")] ∧
    (handle_callback net_token_ok net_userinfo_strict cfg0 qp0
        (login_block cfg0 "u0" init_session).1).qp = [] ∧
    (handle_callback net_token_ok net_userinfo_strict cfg0 qp0
        (login_block cfg0 "u0" init_session).1).outcome = .success ∧
    ((current_identity
        (handle_callback net_token_ok net_userinfo_strict cfg0 qp0
          (login_block cfg0 "u0" init_session).1).session).bind
      (fun u => jget u "email")) = some "u@x.com" :=
  C6_happy_path net_token_ok net_userinfo_strict cfg0 qp0 "u0"
    (QVal.str "abc123") "abc123" rfl rfl rfl (by decide)

/-- C4, counterexample: on the record with only
`email = "jane.doe@example.com"` the contract of the spec resolves the
display name to the local part `jane.doe` with a placeholder avatar keyed
on `J`, but the sidebar (lines 130-133) displays the full email and no
avatar; and on a record with no `email` at all the contract fails
(`IdentityIncompleteError`) while the sidebar silently renders the
default `Unknown`. -/
theorem C4_counterexample :
    resolve_display_identity_spec [("email", "jane.doe@example.com")]
      = some ("jane.doe", .placeholder "J") ∧
    sidebar_identity [("email", "jane.doe@example.com")]
      = ⟨none, "**jane.doe@example.com**"⟩ ∧
    resolve_display_identity_spec [] = none ∧
    sidebar_identity [] = ⟨none, "**Unknown**"⟩ :=
  ⟨rfl, rfl, rfl, rfl⟩

/-- C4, amended: the sidebar identity display shows `record.picture` as
the avatar when present and non-empty (and no avatar otherwise), and
always displays `record.email`, falling back to the literal `Unknown`
when `email` is absent; it derives no name from the email local part,
generates no placeholder avatar, and does not fail when `email` is
absent. -/
theorem C4_amended (user : JsonObj) :
    (∀ e, jget user "email" = some e →
      (sidebar_identity user).email_line = "**" ++ e ++ "**") ∧
    (jget user "email" = none →
      (sidebar_identity user).email_line = "**Unknown**") ∧
    (∀ p, jget user "picture" = some p → p ≠ "" →
      (sidebar_identity user).avatar = some p) ∧
    (jget user "picture" = none → (sidebar_identity user).avatar = none) := by
  refine ⟨fun e he => ?_, fun he => ?_, fun p hp hne => ?_, fun hp => ?_⟩
  · simp [sidebar_identity, he]
  · simp [sidebar_identity, he]
  · simp [sidebar_identity, truthyVal, hp, hne]
  · simp [sidebar_identity, truthyVal, hp]

/-- C4, witness: on a record with email and picture both present, the
sidebar displays the email line and the picture. -/
theorem C4_amended_witness :
    (sidebar_identity [("email", "u@x.com"), ("picture", "http://p/av.png")]).email_line
      = "**" ++ "u@x.com" ++ "**" ∧
    (sidebar_identity [("email", "u@x.com"), ("picture", "http://p/av.png")]).avatar
      = some "http://p/av.png" :=
  ⟨(C4_amended [("email", "u@x.com"), ("picture", "http://p/av.png")]).1
      "u@x.com" rfl,
    (C4_amended [("email", "u@x.com"), ("picture", "http://p/av.png")]).2.2.1
      "http://p/av.png" rfl (by decide)⟩

/-- Filtering out the `state` entry of the query parameters does not
change the lookup of any other key. -/
theorem qlookup_filter_state (qp : QueryParams) (k : String) (hk : k ≠ "state") :
    qlookup (List.filter (fun p => !(p.1 == "state")) qp) k = qlookup qp k := by
  induction qp with
  | nil => rfl
  | cons a t ih =>
    rcases a with ⟨ak, av⟩
    by_cases ha : ak = "state"
    · subst ha
      have hne : ("state" == k) = false := by
        simp [Ne.symm hk]
      simpa [qlookup, List.filter, List.find?, hne] using ih
    · have h₁ : (ak == "state") = false := by simp [ha]
      by_cases hak : ak = k
      · subst hak
        simp [qlookup, List.filter, List.find?, h₁]
      · have h₂ : (ak == k) = false := by simp [hak]
        simpa [qlookup, List.filter, List.find?, h₁, h₂] using ih

/-- C8: the callback block never compares the returned `state` query
parameter with the stored one. Two callback requests that agree on
everything but the value, or even the presence, of `state` (their
parameter lists with the `state` entry removed are equal) yield the same
session, the same outcome, and the same number of network calls: the
exchange proceeds regardless of `state`. -/
theorem C8_state_not_verified (post get : Net) (cfg : Config)
    (qp₁ qp₂ : QueryParams) (s : Session)
    (h : List.filter (fun p => !(p.1 == "state")) qp₁
       = List.filter (fun p => !(p.1 == "state")) qp₂) :
    (handle_callback post get cfg qp₁ s).session
      = (handle_callback post get cfg qp₂ s).session ∧
    (handle_callback post get cfg qp₁ s).outcome
      = (handle_callback post get cfg qp₂ s).outcome ∧
    (handle_callback post get cfg qp₁ s).network_calls
      = (handle_callback post get cfg qp₂ s).network_calls := by
  have hc : qlookup qp₁ "code" = qlookup qp₂ "code" := by
    rw [← qlookup_filter_state qp₁ "code" (by decide),
      ← qlookup_filter_state qp₂ "code" (by decide), h]
  constructor
  · simp [handle_callback, hc]
  constructor
  · simp [handle_callback, hc]
  · simp [handle_callback, hc]

/-- C8, witness: a callback with a (wrong) `state` and a callback with no
`state` at all, with the same `code`, produce identical session, outcome
and network-call count. -/
theorem C8_state_not_verified_witness :
    (handle_callback net_token_ok net_userinfo_ok cfg0
        [("code", QVal.str "abc123"), ("state", QVal.str "attacker")] init_session).session
      = (handle_callback net_token_ok net_userinfo_ok cfg0
        [("code", QVal.str "abc123")] init_session).session ∧
    (handle_callback net_token_ok net_userinfo_ok cfg0
        [("code", QVal.str "abc123"), ("state", QVal.str "attacker")] init_session).outcome
      = (handle_callback net_token_ok net_userinfo_ok cfg0
        [("code", QVal.str "abc123")] init_session).outcome ∧
    (handle_callback net_token_ok net_userinfo_ok cfg0
        [("code", QVal.str "abc123"), ("state", QVal.str "attacker")] init_session).network_calls
      = (handle_callback net_token_ok net_userinfo_ok cfg0
        [("code", QVal.str "abc123")] init_session).network_calls :=
  C8_state_not_verified net_token_ok net_userinfo_ok cfg0
    [("code", QVal.str "abc123"), ("state", QVal.str "attacker")]
    [("code", QVal.str "abc123")] init_session (by decide)

/-- The callback block preserves the invariant that an Identity Record
implies a Token Record: every branch either leaves the session unchanged
or stores a token before (or together with) the identity. -/
theorem handle_callback_user_token (post get : Net) (cfg : Config)
    (qp : QueryParams) (s : Session)
    (h : s.user ≠ none → s.oauth_token ≠ none) :
    (handle_callback post get cfg qp s).session.user ≠ none →
    (handle_callback post get cfg qp s).session.oauth_token ≠ none := by
  cases hq : qlookup qp "code" with
  | none => simpa [handle_callback, callback_core, hq] using h
  | some v =>
    cases ht : s.oauth_token with
    | some tk => simp [handle_callback, callback_core, hq, ht]
    | none =>
      cases hc : extract_code v with
      | none =>
        simp only [handle_callback, callback_core, hq, ht, hc]
        exact fun hu => absurd ht (h hu)
      | some code =>
        cases hx : exchange_code_for_token post cfg code with
        | error e =>
          simp only [handle_callback, callback_core, hq, ht, hc, hx]
          exact fun hu => absurd ht (h hu)
        | ok tj =>
          cases hy : truthyVal (jget tj "access_token") with
          | none =>
            simp only [handle_callback, callback_core, hq, ht, hc, hx, hy]
            exact fun hu => absurd ht (h hu)
          | some a =>
            cases hz : fetch_userinfo get a with
            | error e => simp [handle_callback, callback_core, hq, ht, hc, hx, hy, hz]
            | ok u => simp [handle_callback, callback_core, hq, ht, hc, hx, hy, hz]

/-- Every interaction step preserves the identity-implies-token
invariant. -/
theorem step_preserves_user_token {s t : Session} (hst : SessionStep s t)
    (h : s.user ≠ none → s.oauth_token ≠ none) :
    t.user ≠ none → t.oauth_token ≠ none := by
  cases hst with
  | callback post get cfg qp s => exact handle_callback_user_token post get cfg qp s h
  | login cfg uuid s => simpa [login_block] using h
  | logoutStep s => simp [logout]

/-- C9: in every reachable session state, a non-null Identity Record
implies a non-null Token Record — the identity is only stored after a
token holding `access_token` has been stored, the login block touches
neither, and the Log out handler clears both together. -/
theorem C9_identity_implies_token (s : Session) (hr : Reachable s) :
    s.user ≠ none → s.oauth_token ≠ none := by
  induction hr with
  | init => simp [init_session]
  | step _ hst ih => exact step_preserves_user_token hst ih

/-- C9, witness: the invariant holds at the session reached by a
successful callback from the initial session (where the identity is
non-null, so the implication is not vacuous). -/
theorem C9_identity_implies_token_witness :
    (handle_callback net_token_ok net_userinfo_ok cfg0 qp0 init_session).session.user ≠ none ∧
    (handle_callback net_token_ok net_userinfo_ok cfg0 qp0 init_session).session.oauth_token ≠ none :=
  ⟨by decide,
    C9_identity_implies_token _
      (Reachable.step Reachable.init
        (SessionStep.callback net_token_ok net_userinfo_ok cfg0 qp0 init_session))
      (by decide)⟩
